import Mathlib

/-!
Verification of the `goodmem_adk` integration layer.

Shallow embedding of `goodmem_adk/client.py` (class `GoodmemClient`) and of the
space-resolution helper.  HTTP responses are passed in explicitly as data; the
functions below mirror, branch for branch, the Python bodies.  Outgoing
requests that a claim needs to observe (embedder creation, batch get, space
creation, page requests) are returned alongside the result as an explicit log.
-/

namespace Goodmem

/-- Errors raised by the client: `httpx.HTTPStatusError` (from
`raise_for_status`, carrying status and body), `ValueError` (carrying its
message), and `TypeError` (from Python's `in` on a non-container). -/
inductive PyErr where
  | httpStatusError (status : Nat) (body : String)
  | valueError (msg : String)
  | typeError
deriving Repr, DecidableEq

/-- Python truthiness of an optional string: `None` and `""` are falsy. -/
def truthy : Option String → Bool
  | none => false
  | some s => s ≠ ""

/-- Python `a or b` on optional strings: the first truthy operand, else `b`. -/
def pyOr (a b : Option String) : Option String :=
  if truthy a then a else b

/-- `httpx` success predicate: a 2xx status. -/
def is_success (status : Nat) : Bool :=
  200 ≤ status && status < 300

/-- `response.raise_for_status()`: raises `HTTPStatusError` carrying the
status and body exactly when the status is not 2xx. -/
def raise_for_status (status : Nat) (body : String) : Except PyErr Unit :=
  if is_success status then .ok () else .error (.httpStatusError status body)

/-- A JSON value, as produced by Python's `json.loads`. -/
inductive JVal where
  | null
  | bool (b : Bool)
  | num (n : Int)
  | str (s : String)
  | arr (items : List JVal)
  | obj (fields : List (String × JVal))

/-- Whether a `JVal` is a JSON object. -/
def JVal.isObj : JVal → Bool
  | .obj _ => true
  | _ => false

/-- A metadata mapping (`Dict[str, Any]` in the source). -/
abbrev Metadata := List (String × JVal)

/-- Python truthiness of an optional dict: `None` and `{}` are falsy. -/
def metaTruthy : Option Metadata → Bool
  | none => false
  | some m => !m.isEmpty

/-- The JSON payload `GoodmemClient.insert_memory` posts to `/v1/memories`.
`metadata = none` models the key being absent from the dict. -/
structure InsertMemoryPayload where
  spaceId : String
  originalContent : String
  contentType : String
  metadata : Option Metadata

/-- Payload construction in `GoodmemClient.insert_memory`: the base dict
always carries `spaceId`, `originalContent` and `contentType`; the
`metadata` key is added only under `if metadata:` (Python truthiness). -/
def insert_memory_payload (space_id content content_type : String)
    (metadata : Option Metadata) : InsertMemoryPayload :=
  { spaceId := space_id
    originalContent := content
    contentType := content_type
    metadata := if metaTruthy metadata then metadata else none }

/-- The JSON `request` part `GoodmemClient.insert_memory_binary` sends in its
multipart upload. -/
structure InsertBinaryRequest where
  spaceId : String
  contentType : String
  metadata : Option Metadata

/-- `request_data` construction in `GoodmemClient.insert_memory_binary`: the
`metadata` key is added only under `if metadata:` (Python truthiness). -/
def insert_memory_binary_request (space_id content_type : String)
    (metadata : Option Metadata) : InsertBinaryRequest :=
  { spaceId := space_id
    contentType := content_type
    metadata := if metaTruthy metadata then metadata else none }

/-- The parsed response to `POST /v1/memories:batchGet`: status, raw body and
the value of `data.get("memories", [])`. -/
structure BatchGetResp where
  status : Nat
  bodyText : String
  memories : List JVal

/-- `GoodmemClient.get_memories_batch`: returns `[]` with no request when the
id list is falsy; otherwise issues one request whose payload carries
`memoryIds` and returns `data.get("memories", [])` on success.  The second
component logs the `memoryIds` payload of each request issued. -/
def get_memories_batch (memory_ids : List String) (resp : BatchGetResp) :
    Except PyErr (List JVal) × List (List String) :=
  if memory_ids.isEmpty then (.ok [], [])
  else
    match raise_for_status resp.status resp.bodyText with
    | .error e => (.error e, [memory_ids])
    | .ok _ => (.ok resp.memories, [memory_ids])

/-- One entry of the `list_embedders()` result; `embedderId` is
`e.get("embedderId")`, so the key may be absent (`none`). -/
structure EmbedderRec where
  embedderId : Option String
deriving Repr, DecidableEq

/-- The two environment variables `_auto_create_google_embedder` reads. -/
structure Env where
  google_api_key : Option String
  gemini_api_key : Option String
deriving Repr, DecidableEq

/-- The JSON payload `GoodmemClient.create_embedder` posts to `/v1/embedders`
(the credential dict is flattened to the `apiKey` it carries). -/
structure CreateEmbedderPayload where
  displayName : String
  providerType : String
  endpointUrl : String
  modelIdentifier : String
  dimensionality : Nat
  distributionType : String
  apiKey : String
deriving Repr, DecidableEq

/-- The parsed response to embedder creation; `embedderId` is
`response.get("embedderId")`. -/
structure CreateEmbedderResp where
  embedderId : Option String
deriving Repr, DecidableEq

/-- The class attributes `_GOOGLE_EMBEDDER_*`: the fixed default provider
profile, instantiated with the credential. -/
def googleEmbedderPayload (api_key : String) : CreateEmbedderPayload :=
  { displayName := "gemini-embedding-001"
    providerType := "OPENAI"
    endpointUrl := "https://generativelanguage.googleapis.com/v1beta/openai"
    modelIdentifier := "gemini-embedding-001"
    dimensionality := 1536
    distributionType := "DENSE"
    apiKey := api_key }

/-- Python `repr` of an optional string (an entry of `valid_ids`). -/
def pyReprOptStr : Option String → String
  | none => "None"
  | some s => "\x27" ++ s ++ "\x27"

/-- Python `repr` of the `valid_ids` list, as an f-string renders it. -/
def pyReprList (ids : List (Option String)) : String :=
  "[" ++ String.intercalate ", " (ids.map pyReprOptStr) ++ "]"

/-- The `ValueError` message of `ensure_embedder` for an unknown explicit id. -/
def mkNotFoundMsg (eid : String) (ids : List (Option String)) : String :=
  "GOODMEM_EMBEDDER_ID \x27" ++ eid ++ "\x27 not found. Available embedders: "
    ++ pyReprList ids

/-- The `ValueError` message of `_auto_create_google_embedder` when neither
credential variable is set. -/
def noEmbedderKeyMsg : String :=
  "No embedders available in Goodmem and neither GOOGLE_API_KEY "
    ++ "nor GEMINI_API_KEY is set. Please create an embedder manually "
    ++ "or set one of these environment variables to auto-create a "
    ++ "Google Gemini embedder."

/-- The `ValueError` message when the creation response has no usable id. -/
def noEmbedderIdMsg : String :=
  "Failed to auto-create Google embedder: no embedderId in response"

/-- `GoodmemClient._auto_create_google_embedder`: reads
`GOOGLE_API_KEY or GEMINI_API_KEY` (Python `or`, so an empty string falls
through), raises when the result is falsy, otherwise creates one embedder
with the fixed profile and returns `response.get("embedderId")` when that is
truthy.  The second component logs each creation payload sent. -/
def _auto_create_google_embedder (env : Env) (createResp : CreateEmbedderResp) :
    Except PyErr String × List CreateEmbedderPayload :=
  match pyOr env.google_api_key env.gemini_api_key with
  | none => (.error (.valueError noEmbedderKeyMsg), [])
  | some k =>
      if k = "" then (.error (.valueError noEmbedderKeyMsg), [])
      else
        match createResp.embedderId with
        | some nid =>
            if nid = "" then
              (.error (.valueError noEmbedderIdMsg), [googleEmbedderPayload k])
            else (.ok nid, [googleEmbedderPayload k])
        | none =>
            (.error (.valueError noEmbedderIdMsg), [googleEmbedderPayload k])

/-- `GoodmemClient.ensure_embedder`: `embedders` is the `list_embedders()`
result, `env` and `createResp` feed the auto-creation path.  Mirrors the
source: an explicit id is looked up in `valid_ids`; with no explicit id the
first embedder's id is returned when truthy, and otherwise (including a
falsy first id) auto-creation runs. -/
def ensure_embedder (embedder_id : Option String) (embedders : List EmbedderRec)
    (env : Env) (createResp : CreateEmbedderResp) :
    Except PyErr String × List CreateEmbedderPayload :=
  match embedder_id with
  | some eid =>
      let valid_ids := embedders.map (·.embedderId)
      if valid_ids.contains (some eid) then (.ok eid, [])
      else (.error (.valueError (mkNotFoundMsg eid valid_ids)), [])
  | none =>
      match embedders with
      | e :: _ =>
          match e.embedderId with
          | some s =>
              if s = "" then _auto_create_google_embedder env createResp
              else (.ok s, [])
          | none => _auto_create_google_embedder env createResp
      | [] => _auto_create_google_embedder env createResp

/-- An HTTP response as the client sees it: the status code, the raw body
text, and the value `response.json()` would return. -/
structure HttpResp where
  status : Nat
  bodyText : String
  json : JVal

/-- `GoodmemClient.get_space`: `None` on 404, the parsed body on 2xx, and an
`HTTPStatusError` from `raise_for_status` on every other status. -/
def get_space (resp : HttpResp) : Except PyErr (Option JVal) :=
  if resp.status == 404 then .ok none
  else
    match raise_for_status resp.status resp.bodyText with
    | .error e => .error e
    | .ok _ => .ok (some resp.json)

/-- Python whitespace, as `str.strip` removes it (ASCII range). -/
def isPySpace (c : Char) : Bool :=
  c = ' ' || c = '\n' || c = '\t' || c = '\r' || c = '\x0b' || c = '\x0c'

/-- Python `str.strip()` on the character list of a string. -/
def pyStripChars (l : List Char) : List Char :=
  ((l.dropWhile isPySpace).reverse.dropWhile isPySpace).reverse

/-- Python `str.strip()`. -/
def pyStrip (s : String) : String :=
  ⟨pyStripChars s.data⟩

/-- Helper for `splitLines`: split a character list at each newline,
`cur` holding the current line reversed. -/
def splitLinesAux : List Char → List Char → List (List Char)
  | [], cur => [cur.reverse]
  | c :: rest, cur =>
      if c = '\n' then cur.reverse :: splitLinesAux rest []
      else splitLinesAux rest (c :: cur)

/-- Python `str.split("\n")`: note `"".split("\n") == [""]` and a trailing
newline yields a trailing empty line. -/
def splitLines (s : String) : List String :=
  (splitLinesAux s.data []).map String.mk

/-- Bool test: `needle` is a leading segment of `hay`. -/
def listPrefixEq : List Char → List Char → Bool
  | [], _ => true
  | _ :: _, [] => false
  | a :: as, b :: bs => a = b && listPrefixEq as bs

/-- Bool substring test on character lists. -/
def listContainsSub (needle : List Char) : List Char → Bool
  | [] => needle.isEmpty
  | c :: t => listPrefixEq needle (c :: t) || listContainsSub needle t

/-- Python `needle in hay` on strings: substring containment. -/
def strContains (hay needle : String) : Bool :=
  listContainsSub needle.data hay.data

/-- Python `key in v` on a decoded JSON value: key membership on a dict,
element equality on a list, substring on a string, and `TypeError` on the
non-container values (`int`, `bool`, `None`). -/
def py_in (key : String) : JVal → Except PyErr Bool
  | .obj fields => .ok (fields.any (fun kv => kv.1 = key))
  | .arr items =>
      .ok (items.any (fun v =>
        match v with
        | .str s => s = key
        | _ => false))
  | .str s => .ok (strContains s key)
  | _ => .error .typeError

/-- One iteration of the parsing loop of `GoodmemClient.retrieve_memories`:
skip blank lines, skip lines on which `loads` fails (`json.JSONDecodeError`
is caught), keep the parsed value when `"retrievedItem" in tmp_dict` — whose
possible `TypeError` is NOT caught by the `except` clause. -/
def retrieve_step (loads : String → Option JVal) (chunks : List JVal)
    (line : String) : Except PyErr (List JVal) :=
  if pyStrip line ≠ "" then
    match loads line with
    | some v => do
        let b ← py_in "retrievedItem" v
        pure (if b then chunks ++ [v] else chunks)
    | none => pure chunks
  else pure chunks

/-- The response-body processing of `GoodmemClient.retrieve_memories`:
`response.text.strip().split("\n")`, folded through `retrieve_step`.
`loads` stands for `json.loads` (`none` = `JSONDecodeError`). -/
def retrieve_parse (loads : String → Option JVal) (text : String) :
    Except PyErr (List JVal) :=
  (splitLines (pyStrip text)).foldlM (retrieve_step loads) []

/-- A retrieval response: status code and body text. -/
structure RetrieveResp where
  status : Nat
  text : String

/-- `GoodmemClient.retrieve_memories` after the POST: `raise_for_status`,
then the NDJSON parsing loop over `response.text`. -/
def retrieve_memories (loads : String → Option JVal) (resp : RetrieveResp) :
    Except PyErr (List JVal) :=
  match raise_for_status resp.status resp.text with
  | .error e => .error e
  | .ok _ => retrieve_parse loads resp.text

/-- The claim's characterisation of one line (stated from the spec, for
comparison with the code): kept iff non-blank, parses, and the parse is an
object with a `"retrievedItem"` key. -/
def specKeepLine (loads : String → Option JVal) (line : String) :
    Option JVal :=
  if pyStrip line ≠ "" then
    match loads line with
    | some (.obj fields) =>
        if fields.any (fun kv => kv.1 = "retrievedItem") then
          some (.obj fields)
        else none
    | _ => none
  else none

/-- `loads` result is an object, whenever it parses at all. -/
def loadsObjOnly (loads : String → Option JVal) (line : String) : Bool :=
  match loads line with
  | some v => v.isObj
  | none => true

/-- A concrete fragment of `json.loads`: `"5"` parses to the number 5. -/
def loadsNum : String → Option JVal :=
  fun s => if s = "5" then some (.num 5) else none

/-- A concrete fragment of `json.loads` for the three object lines of the
demo body below. -/
def loadsDemo : String → Option JVal :=
  fun s =>
    if s = "\x7b\"retrievedItem\": 1\x7d" then
      some (.obj [("retrievedItem", .num 1)])
    else if s = "\x7b\"status\": \"ok\"\x7d" then
      some (.obj [("status", .str "ok")])
    else if s = "\x7b\"retrievedItem\": 2\x7d" then
      some (.obj [("retrievedItem", .num 2)])
    else none

/-- A demo NDJSON body: a kept line, a blank line, a status line, a
malformed line, another kept line. -/
def demoBody : String :=
  "\x7b\"retrievedItem\": 1\x7d\n\n\x7b\"status\": \"ok\"\x7d\nnot json\n"
    ++ "\x7b\"retrievedItem\": 2\x7d"

/-- The query params of one `GET /v1/spaces` page request, as
`GoodmemClient.list_spaces` builds them: `maxResults` always, `nextToken`
only under `if next_token:`, `nameFilter` only under `if name:` (both Python
truthiness). -/
structure PageParams where
  maxResults : Nat
  nextToken : Option String
  nameFilter : Option String
deriving Repr, DecidableEq

/-- The params dict built at the top of each iteration of `list_spaces`. -/
def mkPageParams (name tok : Option String) : PageParams :=
  { maxResults := 1000
    nextToken := if truthy tok then tok else none
    nameFilter := if truthy name then name else none }

/-- One page response: status, body text, `data.get("spaces", [])` and
`data.get("nextToken")`. -/
structure PageResp where
  status : Nat
  bodyText : String
  spaces : List JVal
  nextToken : Option String

/-- The `while True` pagination loop of `GoodmemClient.list_spaces`, with
`serve` standing for the server and an explicit fuel bound (`none` means the
fuel ran out before the loop broke, i.e. the loop would still be running).
Mirrors the body: build params, GET, `raise_for_status`, extend `all_spaces`
with `data.get("spaces", [])`, break when `data.get("nextToken")` is falsy.
Also returns the list of page requests issued, in order. -/
def list_spaces_go (serve : PageParams → PageResp) (name : Option String) :
    Nat → Option String → List PageParams → List JVal →
    Option (Except PyErr (List JVal) × List PageParams)
  | 0, _, _, _ => none
  | fuel + 1, tok, reqs, acc =>
      let params := mkPageParams name tok
      let resp := serve params
      match raise_for_status resp.status resp.bodyText with
      | .error e => some (.error e, reqs ++ [params])
      | .ok _ =>
          let acc2 := acc ++ resp.spaces
          if truthy resp.nextToken then
            list_spaces_go serve name fuel resp.nextToken
              (reqs ++ [params]) acc2
          else some (.ok acc2, reqs ++ [params])

/-- `GoodmemClient.list_spaces`: the loop started with no token and empty
accumulators. -/
def list_spaces (serve : PageParams → PageResp) (name : Option String)
    (fuel : Nat) : Option (Except PyErr (List JVal) × List PageParams) :=
  list_spaces_go serve name fuel none [] []

/-- The raw `next_token` value the loop holds before issuing page `k`. -/
def tokChain (serve : PageParams → PageResp) (name : Option String) :
    Nat → Option String
  | 0 => none
  | k + 1 => (serve (mkPageParams name (tokChain serve name k))).nextToken

/-- The response of the `k`-th page request. -/
def pageAt (serve : PageParams → PageResp) (name : Option String) (k : Nat) :
    PageResp :=
  serve (mkPageParams name (tokChain serve name k))

/-- A demo server with two pages: the first page links to the second via
token `t1`, the second has no next token. -/
def serveDemo : PageParams → PageResp :=
  fun p =>
    match p.nextToken with
    | none => ⟨200, "", [.str "s1"], some "t1"⟩
    | some _ => ⟨200, "", [.str "s2"], none⟩

/-- Modelled from the spec: `GoodmemClient.delete_space` is exercised by the
repository's tests (`test_client.py::test_delete_space`) but its body is not
in the source tree given here.  Spec §4.1: "Delete space(id) → no return
value; failure is a request-failure error."  One DELETE request naming the
space id is issued; the second component logs the id of each delete request. -/
def delete_space (space_id : String) (resp_status : Nat)
    (resp_body : String) : Except PyErr Unit × List String :=
  match raise_for_status resp_status resp_body with
  | .error e => (.error e, [space_id])
  | .ok _ => (.ok (), [space_id])

/-- A space record as the listing returns it: its id and its name. -/
structure SpaceRec where
  spaceId : String
  name : String
deriving Repr, DecidableEq

/-- The remote interactions available to the space-resolution helper:
fetch-by-id, name-filtered listing, embedder resolution, and the server-side
id assignment for a space created under a given name. -/
structure SpaceRemote where
  getSpace : String → Option SpaceRec
  listByName : String → List SpaceRec
  ensureEmbedder : Except String String
  createdId : String → String

/-- Step 3 of the spec's space resolution: look the name up in the filtered
listing; on a miss, resolve an embedder and create the space under that
name.  The second component logs the names of the spaces created. -/
def resolve_by_name (r : SpaceRemote) (n : String) :
    Except String String × List String :=
  match (r.listByName n).head? with
  | some sr => (.ok sr.spaceId, [])
  | none =>
      match r.ensureEmbedder with
      | .error e => (.error e, [])
      | .ok _ => (.ok (r.createdId n), [n])

/-- Modelled from the spec: the space-resolution helper
(`_get_or_create_space` in `goodmem_adk/tools.py`) is exercised by the
repository's tests but its body is not in the source tree given here.
Steps 1-5 of spec §4.2 "Space resolution", the per-resolver cache aside:
explicit id and name win over their environment counterparts; an id alone is
fetched directly and never consults the listing; a name alone is looked up
and the space auto-created on a miss; id and name together must agree with
the name-filtered listing ("name does not match any existing space" on an
empty listing, "id and name refer to different spaces" on a mismatch); with
neither, the deterministic default name is substituted and step 3 rerun.
The second component logs the names of the spaces created. -/
def resolve_space (r : SpaceRemote)
    (space_id space_name env_id env_name : Option String)
    (default_name : String) : Except String String × List String :=
  let eff_id := match space_id with
    | some i => some i
    | none => env_id
  let eff_name := match space_name with
    | some n => some n
    | none => env_name
  match eff_id with
  | some i =>
      match eff_name with
      | none =>
          match r.getSpace i with
          | some _ => (.ok i, [])
          | none => (.error "space_id not found", [])
      | some n =>
          match (r.listByName n).head? with
          | none => (.error "name does not match any existing space", [])
          | some sr =>
              if sr.spaceId = i then (.ok i, [])
              else (.error "id and name refer to different spaces", [])
  | none =>
      match eff_name with
      | some n => resolve_by_name r n
      | none => resolve_by_name r default_name

/-- A demo remote whose name-filtered listing returns one space,
`other-id` / `my_space` (the repository's mismatch test fixture). -/
def remoteDemo : SpaceRemote :=
  { getSpace := fun _ => none
    listByName := fun _ => [⟨"other-id", "my_space"⟩]
    ensureEmbedder := .ok "emb-1"
    createdId := fun _ => "new-id" }

/-- A demo remote whose name-filtered listing is empty. -/
def remoteEmptyDemo : SpaceRemote :=
  { getSpace := fun _ => none
    listByName := fun _ => []
    ensureEmbedder := .ok "emb-1"
    createdId := fun _ => "new-id" }

end Goodmem

namespace Goodmem

/-- C6: `get_space` returns the record on 2xx, the `None` sentinel on 404,
and raises `HTTPStatusError` with the status and body exactly on the
remaining statuses. -/
theorem get_space_spec (resp : HttpResp) :
    (is_success resp.status = true → get_space resp = .ok (some resp.json))
    ∧ (resp.status = 404 → get_space resp = .ok none)
    ∧ (is_success resp.status = false → resp.status ≠ 404 →
        get_space resp = .error (.httpStatusError resp.status resp.bodyText))
    ∧ ((∃ e, get_space resp = .error e) ↔
        (is_success resp.status = false ∧ resp.status ≠ 404)) := by
  have h404 : ¬ is_success 404 = true := by decide
  refine ⟨?_, ?_, ?_, ?_⟩
  · intro hs
    have : resp.status ≠ 404 := by
      intro h
      rw [h] at hs
      exact h404 hs
    simp [get_space, raise_for_status, hs, this]
  · intro h
    simp [get_space, h]
  · intro hs hne
    simp [get_space, raise_for_status, hs, hne]
  · constructor
    · rintro ⟨e, he⟩
      by_cases h404' : resp.status = 404
      · simp [get_space, h404'] at he
      · by_cases hs : is_success resp.status = true
        · simp [get_space, raise_for_status, hs, h404'] at he
        · exact ⟨by simpa using hs, h404'⟩
    · rintro ⟨hs, hne⟩
      refine ⟨.httpStatusError resp.status resp.bodyText, ?_⟩
      simp [get_space, raise_for_status, hs, hne]

/-- Witness for C6 at a concrete response: status 500 raises, status 200
returns the record, status 404 returns the sentinel. -/
theorem get_space_spec_witness :
    get_space ⟨500, "boom", .null⟩ = .error (.httpStatusError 500 "boom")
    ∧ get_space ⟨200, "", .str "rec"⟩ = .ok (some (.str "rec"))
    ∧ get_space ⟨404, "", .null⟩ = .ok none :=
  ⟨(get_space_spec ⟨500, "boom", .null⟩).2.2.1 (by decide) (by decide),
   (get_space_spec ⟨200, "", .str "rec"⟩).1 (by decide),
   (get_space_spec ⟨404, "", .null⟩).2.1 rfl⟩

end Goodmem

namespace Goodmem

/-- C10: for both insertion payloads, absent and empty metadata both leave
the `metadata` key out of the wire payload (making them indistinguishable),
while a non-empty metadata mapping is included verbatim. -/
theorem insert_metadata_spec (space_id content content_type : String)
    (metadata : Option Metadata) :
    ((metadata = none ∨ metadata = some [] →
        (insert_memory_payload space_id content content_type metadata).metadata
          = none
        ∧ (insert_memory_binary_request space_id content_type metadata).metadata
          = none)
      ∧ (∀ m, metadata = some m → m ≠ [] →
        (insert_memory_payload space_id content content_type metadata).metadata
          = some m
        ∧ (insert_memory_binary_request space_id content_type metadata).metadata
          = some m))
    ∧ insert_memory_payload space_id content content_type none
        = insert_memory_payload space_id content content_type (some [])
    ∧ insert_memory_binary_request space_id content_type none
        = insert_memory_binary_request space_id content_type (some []) := by
  refine ⟨⟨?_, ?_⟩, ?_, ?_⟩
  · rintro (rfl | rfl) <;>
      simp [insert_memory_payload, insert_memory_binary_request, metaTruthy]
  · rintro m rfl hm
    have : metaTruthy (some m) = true := by
      simp [metaTruthy, List.isEmpty_iff, hm]
    simp [insert_memory_payload, insert_memory_binary_request, this]
  · simp [insert_memory_payload, metaTruthy]
  · simp [insert_memory_binary_request, metaTruthy]

/-- Witness for C10: a concrete one-entry metadata map is forwarded verbatim,
and an empty map is dropped. -/
theorem insert_metadata_spec_witness :
    (insert_memory_payload "s" "c" "text/plain"
        (some [("user", .str "u")])).metadata = some [("user", .str "u")]
    ∧ (insert_memory_payload "s" "c" "text/plain" (some [])).metadata = none :=
  ⟨((insert_metadata_spec "s" "c" "text/plain"
        (some [("user", .str "u")])).1.2 _ rfl (by simp)).1,
   ((insert_metadata_spec "s" "c" "text/plain" (some [])).1.1 (Or.inr rfl)).1⟩

/-- C9: `get_memories_batch` issues no request for the empty id list and
returns `[]`; for every non-empty id list it issues exactly one request whose
payload carries all the requested ids. -/
theorem get_memories_batch_spec (memory_ids : List String)
    (resp : BatchGetResp) :
    (memory_ids = [] → get_memories_batch memory_ids resp = (.ok [], []))
    ∧ (memory_ids ≠ [] →
        (get_memories_batch memory_ids resp).2 = [memory_ids]) := by
  constructor
  · rintro rfl
    simp [get_memories_batch]
  · intro h
    have hne : memory_ids.isEmpty = false := by
      simpa [List.isEmpty_iff] using h
    cases hrs : raise_for_status resp.status resp.bodyText <;>
      simp [get_memories_batch, hne, hrs]

/-- Witness for C9 at concrete inputs: no request for `[]`, one request
carrying both ids for `["m1", "m2"]`. -/
theorem get_memories_batch_spec_witness :
    get_memories_batch [] ⟨200, "", []⟩ = (.ok [], [])
    ∧ (get_memories_batch ["m1", "m2"] ⟨200, "", []⟩).2 = [["m1", "m2"]] :=
  ⟨(get_memories_batch_spec [] ⟨200, "", []⟩).1 rfl,
   (get_memories_batch_spec ["m1", "m2"] ⟨200, "", []⟩).2 (by simp)⟩

end Goodmem

namespace Goodmem

/-- C2: an explicit embedder id absent from the listed ids makes
`ensure_embedder` fail with the `ValueError` naming the id and the available
ids, creating nothing; a present id is returned unchanged. -/
theorem ensure_embedder_explicit_spec (eid : String)
    (embedders : List EmbedderRec) (env : Env)
    (createResp : CreateEmbedderResp) :
    ((embedders.map (·.embedderId)).contains (some eid) = false →
        ensure_embedder (some eid) embedders env createResp
          = (.error (.valueError
              (mkNotFoundMsg eid (embedders.map (·.embedderId)))), []))
    ∧ ((embedders.map (·.embedderId)).contains (some eid) = true →
        ensure_embedder (some eid) embedders env createResp = (.ok eid, []))
    ∧ (∃ pre mid, mkNotFoundMsg eid (embedders.map (·.embedderId))
        = pre ++ eid ++ mid
            ++ pyReprList (embedders.map (·.embedderId))) := by
  refine ⟨?_, ?_,
    ⟨"GOODMEM_EMBEDDER_ID \x27", "\x27 not found. Available embedders: ",
      rfl⟩⟩
  · intro h
    simp only [ensure_embedder]
    rw [h]
    rfl
  · intro h
    simp only [ensure_embedder]
    rw [h]
    rfl

/-- Witness for C2: an unknown id fails with the message, a known id is
returned; in both cases the creation log is empty. -/
theorem ensure_embedder_explicit_spec_witness :
    ensure_embedder (some "x") [⟨some "a"⟩] ⟨none, none⟩ ⟨none⟩
      = (.error (.valueError (mkNotFoundMsg "x" [some "a"])), [])
    ∧ ensure_embedder (some "a") [⟨some "a"⟩] ⟨none, none⟩ ⟨none⟩
        = (.ok "a", []) :=
  ⟨(ensure_embedder_explicit_spec "x" [⟨some "a"⟩] ⟨none, none⟩ ⟨none⟩).1
      (by decide),
   (ensure_embedder_explicit_spec "a" [⟨some "a"⟩] ⟨none, none⟩ ⟨none⟩).2.1
      (by decide)⟩

/-- C3 counterexample: with a non-empty embedder list whose first record
carries the id `""`, `ensure_embedder` does not return the first embedder's
id — it runs auto-creation (one creation call is logged and the created id
is returned), contradicting the claim at this input. -/
theorem ensure_embedder_first_cex :
    ensure_embedder none [⟨some ""⟩] ⟨some "k", none⟩ ⟨some "new-id"⟩
      = (.ok "new-id", [googleEmbedderPayload "k"])
    ∧ ¬((ensure_embedder none [⟨some ""⟩] ⟨some "k", none⟩
            ⟨some "new-id"⟩).2 = []
        ∧ (ensure_embedder none [⟨some ""⟩] ⟨some "k", none⟩
            ⟨some "new-id"⟩).1 = .ok "") := by
  refine ⟨rfl, ?_⟩
  rintro ⟨h, -⟩
  exact absurd h (by decide)

/-- C3 amended: with no explicit id, a non-empty embedder list whose first
record carries a non-empty id makes `ensure_embedder` return that id with no
creation call. -/
theorem ensure_embedder_first_spec (e : EmbedderRec)
    (rest : List EmbedderRec) (s : String) (env : Env)
    (createResp : CreateEmbedderResp)
    (hs : e.embedderId = some s) (hne : s ≠ "") :
    ensure_embedder none (e :: rest) env createResp = (.ok s, []) := by
  simp [ensure_embedder, hs, hne]

/-- Witness for amended C3: the first embedder's id `emb-1` is returned even
though a credential and a second embedder are available. -/
theorem ensure_embedder_first_spec_witness :
    ensure_embedder none [⟨some "emb-1"⟩, ⟨some "emb-2"⟩] ⟨some "k", none⟩
      ⟨some "new-id"⟩ = (.ok "emb-1", []) :=
  ensure_embedder_first_spec ⟨some "emb-1"⟩ [⟨some "emb-2"⟩] "emb-1"
    ⟨some "k", none⟩ ⟨some "new-id"⟩ rfl (by decide)

/-- Behaviour of `_auto_create_google_embedder` once the credential lookup
has produced a non-empty key `k`: exactly one creation with the fixed
profile, and the response id is returned when truthy. -/
theorem auto_create_key_spec (env : Env) (createResp : CreateEmbedderResp)
    (k : String) (hk : pyOr env.google_api_key env.gemini_api_key = some k)
    (hne : k ≠ "") :
    (_auto_create_google_embedder env createResp).2
      = [googleEmbedderPayload k]
    ∧ ∀ nid, createResp.embedderId = some nid → nid ≠ "" →
        (_auto_create_google_embedder env createResp).1 = .ok nid := by
  constructor
  · cases hc : createResp.embedderId with
    | none => simp [_auto_create_google_embedder, hk, hne, hc]
    | some nid =>
        by_cases hn : nid = "" <;>
          simp [_auto_create_google_embedder, hk, hne, hc, hn]
  · intro nid hc hnid
    simp [_auto_create_google_embedder, hk, hne, hc, hnid]

/-- C4: with no explicit id and zero embedders, `ensure_embedder` fails with
the descriptive message and creates nothing when neither credential variable
holds a non-empty value; with a non-empty `GOOGLE_API_KEY` (taking priority)
or, failing that, a non-empty `GEMINI_API_KEY`, exactly one embedder is
created with the fixed Google profile and the created id is returned.  The
last conjunct spells out that fixed profile. -/
theorem ensure_embedder_autocreate_spec (env : Env)
    (createResp : CreateEmbedderResp) :
    (truthy env.google_api_key = false → truthy env.gemini_api_key = false →
        ensure_embedder none [] env createResp
          = (.error (.valueError noEmbedderKeyMsg), []))
    ∧ (∀ g, env.google_api_key = some g → g ≠ "" →
        (ensure_embedder none [] env createResp).2 = [googleEmbedderPayload g]
        ∧ ∀ nid, createResp.embedderId = some nid → nid ≠ "" →
            (ensure_embedder none [] env createResp).1 = .ok nid)
    ∧ (∀ g, truthy env.google_api_key = false → env.gemini_api_key = some g →
        g ≠ "" →
        (ensure_embedder none [] env createResp).2 = [googleEmbedderPayload g]
        ∧ ∀ nid, createResp.embedderId = some nid → nid ≠ "" →
            (ensure_embedder none [] env createResp).1 = .ok nid)
    ∧ (∀ k, (googleEmbedderPayload k).displayName = "gemini-embedding-001"
        ∧ (googleEmbedderPayload k).providerType = "OPENAI"
        ∧ (googleEmbedderPayload k).endpointUrl
            = "https://generativelanguage.googleapis.com/v1beta/openai"
        ∧ (googleEmbedderPayload k).modelIdentifier = "gemini-embedding-001"
        ∧ (googleEmbedderPayload k).dimensionality = 1536
        ∧ (googleEmbedderPayload k).distributionType = "DENSE"
        ∧ (googleEmbedderPayload k).apiKey = k) := by
  have hnil : ensure_embedder none [] env createResp
      = _auto_create_google_embedder env createResp := rfl
  refine ⟨?_, ?_, ?_, fun k => ⟨rfl, rfl, rfl, rfl, rfl, rfl, rfl⟩⟩
  · intro hg hm
    rw [hnil]
    cases hgem : env.gemini_api_key with
    | none =>
        simp [_auto_create_google_embedder, pyOr, hg, hgem]
    | some t =>
        have ht : t = "" := by
          rw [hgem] at hm
          simpa [truthy] using hm
        subst ht
        simp [_auto_create_google_embedder, pyOr, hg, hgem]
  · rintro g hg hne
    have hk : pyOr env.google_api_key env.gemini_api_key = some g := by
      simp [pyOr, hg, truthy, hne]
    rw [hnil]
    exact auto_create_key_spec env createResp g hk hne
  · rintro g hgf hgm hne
    have hk : pyOr env.google_api_key env.gemini_api_key = some g := by
      simp [pyOr, hgf, hgm]
    rw [hnil]
    exact auto_create_key_spec env createResp g hk hne

/-- Witness for C4: no credential fails with the message and no creation;
`GOOGLE_API_KEY = "g"` yields exactly one creation with the fixed profile
and the created id `nid` is returned. -/
theorem ensure_embedder_autocreate_spec_witness :
    ensure_embedder none [] ⟨none, none⟩ ⟨some "nid"⟩
      = (.error (.valueError noEmbedderKeyMsg), [])
    ∧ (ensure_embedder none [] ⟨some "g", none⟩ ⟨some "nid"⟩).2
        = [googleEmbedderPayload "g"]
    ∧ (ensure_embedder none [] ⟨some "g", none⟩ ⟨some "nid"⟩).1
        = .ok "nid" :=
  ⟨(ensure_embedder_autocreate_spec ⟨none, none⟩ ⟨some "nid"⟩).1 rfl rfl,
   ((ensure_embedder_autocreate_spec ⟨some "g", none⟩ ⟨some "nid"⟩).2.1 "g"
      rfl (by decide)).1,
   ((ensure_embedder_autocreate_spec ⟨some "g", none⟩ ⟨some "nid"⟩).2.1 "g"
      rfl (by decide)).2 "nid" rfl (by decide)⟩

end Goodmem

namespace Goodmem

/-- The parsing fold of `retrieve_memories` agrees with the line-by-line
keep characterisation, provided every line that parses parses to an
object. -/
theorem retrieve_fold_ok (loads : String → Option JVal) (l : List String) :
    ∀ acc : List JVal,
      (∀ line ∈ l, pyStrip line ≠ "" → loadsObjOnly loads line = true) →
      l.foldlM (retrieve_step loads) acc
        = .ok (acc ++ l.filterMap (specKeepLine loads)) := by
  induction l with
  | nil =>
      intro acc _
      simp [pure, Except.pure]
  | cons line rest ih =>
      intro acc h
      have hline := h line (by simp)
      have hrest : ∀ l2 ∈ rest, pyStrip l2 ≠ "" →
          loadsObjOnly loads l2 = true :=
        fun l2 hl2 => h l2 (List.mem_cons_of_mem _ hl2)
      have ihr := fun acc2 => ih acc2 hrest
      rw [List.foldlM_cons]
      by_cases hb : pyStrip line = ""
      · simp [retrieve_step, hb, specKeepLine, ihr]
      · cases hld : loads line with
        | none => simp [retrieve_step, hb, hld, specKeepLine, ihr]
        | some v =>
            have hv : v.isObj = true := by
              have hx := hline hb
              rw [loadsObjOnly, hld] at hx
              exact hx
            cases v with
            | obj fields =>
                by_cases hkey :
                    fields.any (fun kv => kv.1 = "retrievedItem") = true
                · simp [retrieve_step, hb, hld, py_in, specKeepLine, hkey,
                    ihr, Bind.bind, Except.bind, pure, Except.pure]
                · simp [retrieve_step, hb, hld, py_in, specKeepLine, hkey,
                    ihr, Bind.bind, Except.bind, pure, Except.pure]
            | null => simp [JVal.isObj] at hv
            | bool b => simp [JVal.isObj] at hv
            | num n => simp [JVal.isObj] at hv
            | str s => simp [JVal.isObj] at hv
            | arr items => simp [JVal.isObj] at hv

/-- C5 counterexample: on the 2xx body `"5"` (one line of valid JSON that is
not an object), the membership test raises a `TypeError` that the
`except json.JSONDecodeError` clause does not catch, so the operation fails
instead of skipping the line as the claim states. -/
theorem retrieve_memories_nonobject_cex :
    retrieve_memories loadsNum ⟨200, "5"⟩ = .error .typeError
    ∧ retrieve_memories loadsNum ⟨200, "5"⟩ ≠ .ok [] := by
  refine ⟨rfl, fun h => ?_⟩
  rw [show retrieve_memories loadsNum ⟨200, "5"⟩ = .error .typeError
      from rfl] at h
  exact Except.noConfusion h

/-- C5 amended: on every 2xx body whose JSON-parseable lines all parse to
objects, `retrieve_memories` returns exactly the non-blank lines that parse
to an object carrying a `"retrievedItem"` key, in their original order;
blank lines, unparseable lines and objects without the key are skipped
without failing. -/
theorem retrieve_memories_ndjson_spec (loads : String → Option JVal)
    (resp : RetrieveResp)
    (hok : is_success resp.status = true)
    (hobj : ∀ line ∈ splitLines (pyStrip resp.text), pyStrip line ≠ "" →
        loadsObjOnly loads line = true) :
    retrieve_memories loads resp
      = .ok ((splitLines (pyStrip resp.text)).filterMap
          (specKeepLine loads)) := by
  rw [retrieve_memories, raise_for_status]
  rw [if_pos hok]
  rw [retrieve_parse, retrieve_fold_ok loads _ [] hobj]
  simp

/-- Witness for amended C5: the demo body keeps its two `retrievedItem`
lines, in order, and drops the blank, status and malformed lines. -/
theorem retrieve_memories_ndjson_spec_witness :
    retrieve_memories loadsDemo ⟨200, demoBody⟩
      = .ok [.obj [("retrievedItem", .num 1)],
             .obj [("retrievedItem", .num 2)]] := by
  rw [retrieve_memories_ndjson_spec loadsDemo ⟨200, demoBody⟩ (by decide)
    (by decide)]
  rfl

end Goodmem

namespace Goodmem

/-- One loop iteration that continues: 2xx page whose next token is truthy. -/
theorem list_spaces_go_step (serve : PageParams → PageResp)
    (name : Option String) (fuel : Nat) (tok : Option String)
    (reqs : List PageParams) (acc : List JVal)
    (hok : is_success (serve (mkPageParams name tok)).status = true)
    (hcont : truthy (serve (mkPageParams name tok)).nextToken = true) :
    list_spaces_go serve name (fuel + 1) tok reqs acc
      = list_spaces_go serve name fuel
          (serve (mkPageParams name tok)).nextToken
          (reqs ++ [mkPageParams name tok])
          (acc ++ (serve (mkPageParams name tok)).spaces) := by
  simp [list_spaces_go, raise_for_status, hok, hcont]

/-- One loop iteration that breaks: 2xx page whose next token is falsy. -/
theorem list_spaces_go_last (serve : PageParams → PageResp)
    (name : Option String) (fuel : Nat) (tok : Option String)
    (reqs : List PageParams) (acc : List JVal)
    (hok : is_success (serve (mkPageParams name tok)).status = true)
    (hstop : truthy (serve (mkPageParams name tok)).nextToken = false) :
    list_spaces_go serve name (fuel + 1) tok reqs acc
      = some (.ok (acc ++ (serve (mkPageParams name tok)).spaces),
          reqs ++ [mkPageParams name tok]) := by
  simp [list_spaces_go, raise_for_status, hok, hstop]

/-- Splitting the head off a `range`-indexed map. -/
theorem range_map_head {α : Type} (m : Nat) (f : Nat → α) :
    (List.range (m + 1)).map f
      = f 0 :: (List.range m).map (fun d => f (d + 1)) := by
  rw [List.range_succ_eq_map, List.map_cons, List.map_map]
  rfl

/-- The loop, run from page `j` with `n` continuations left, returns the
concatenation of the pages' space lists and logs one request per page. -/
theorem list_spaces_go_ok (serve : PageParams → PageResp)
    (name : Option String) :
    ∀ (n j : Nat) (reqs : List PageParams) (acc : List JVal),
      (∀ i, j ≤ i → i < j + n →
          truthy (tokChain serve name (i + 1)) = true) →
      truthy (tokChain serve name (j + n + 1)) = false →
      (∀ i, j ≤ i → i ≤ j + n →
          is_success (pageAt serve name i).status = true) →
      list_spaces_go serve name (n + 1) (tokChain serve name j) reqs acc
        = some (.ok (acc ++ ((List.range (n + 1)).map
              (fun d => (pageAt serve name (j + d)).spaces)).flatten),
            reqs ++ (List.range (n + 1)).map
              (fun d => mkPageParams name (tokChain serve name (j + d)))) := by
  intro n
  induction n with
  | zero =>
      intro j reqs acc hcont hstop hok
      have hj : is_success (serve
          (mkPageParams name (tokChain serve name j))).status = true :=
        hok j le_rfl (by omega)
      have hstop' := hstop
      rw [show j + 0 + 1 = j + 1 by omega] at hstop'
      rw [list_spaces_go_last serve name 0 (tokChain serve name j) reqs acc
        hj hstop']
      simp [pageAt, show List.range 1 = [0] from by decide]
  | succ n ihn =>
      intro j reqs acc hcont hstop hok
      have hj : is_success (serve
          (mkPageParams name (tokChain serve name j))).status = true :=
        hok j le_rfl (by omega)
      have hcj : truthy (serve
          (mkPageParams name (tokChain serve name j))).nextToken = true := by
        have hx := hcont j le_rfl (by omega)
        rw [tokChain] at hx
        exact hx
      rw [list_spaces_go_step serve name (n + 1)
        (tokChain serve name j) reqs acc hj hcj]
      have hstop' := hstop
      rw [show j + (n + 1) + 1 = (j + 1) + n + 1 by omega] at hstop'
      have hrec := ihn (j + 1)
          (reqs ++ [mkPageParams name (tokChain serve name j)])
          (acc ++ (serve (mkPageParams name (tokChain serve name j))).spaces)
          (fun i hi1 hi2 => hcont i (by omega) (by omega))
          hstop'
          (fun i hi1 hi2 => hok i (by omega) (by omega))
      rw [show (serve (mkPageParams name (tokChain serve name j))).nextToken
            = tokChain serve name (j + 1) from rfl]
      rw [hrec]
      rw [range_map_head (n + 1)
          (fun d => (pageAt serve name (j + d)).spaces),
        range_map_head (n + 1)
          (fun d => mkPageParams name (tokChain serve name (j + d)))]
      rw [show (fun d => (pageAt serve name (j + (d + 1))).spaces)
            = (fun d => (pageAt serve name (j + 1 + d)).spaces)
          from funext fun d => by rw [show j + (d + 1) = j + 1 + d by omega]]
      rw [show (fun d => mkPageParams name (tokChain serve name (j + (d + 1))))
            = (fun d => mkPageParams name (tokChain serve name (j + 1 + d)))
          from funext fun d => by rw [show j + (d + 1) = j + 1 + d by omega]]
      simp [pageAt, List.append_assoc]

/-- C7: when the server's token chain goes falsy after page `k` and every
page is 2xx, `list_spaces` terminates within the call (fuel `k + 1`
suffices), returns the concatenation of the pages' space lists in page
order, and every page request carries `maxResults = 1000` and the name
filter (when the name is truthy). -/
theorem list_spaces_spec (serve : PageParams → PageResp)
    (name : Option String) (k : Nat)
    (hcont : ∀ i, i < k → truthy (tokChain serve name (i + 1)) = true)
    (hstop : truthy (tokChain serve name (k + 1)) = false)
    (hok : ∀ i, i ≤ k → is_success (pageAt serve name i).status = true) :
    list_spaces serve name (k + 1)
      = some (.ok (((List.range (k + 1)).map
            (fun d => (pageAt serve name d).spaces)).flatten),
          (List.range (k + 1)).map
            (fun d => mkPageParams name (tokChain serve name d)))
    ∧ ∀ p ∈ (List.range (k + 1)).map
          (fun d => mkPageParams name (tokChain serve name d)),
        p.nameFilter = (if truthy name then name else none)
        ∧ p.maxResults = 1000 := by
  constructor
  · have h := list_spaces_go_ok serve name k 0 [] []
        (fun i hi1 hi2 => hcont i (by omega))
        (by simpa using hstop)
        (fun i hi1 hi2 => hok i (by omega))
    simpa [list_spaces, tokChain] using h
  · intro p hp
    simp only [List.mem_map] at hp
    obtain ⟨d, hd, hpd⟩ := hp
    rw [← hpd]
    exact ⟨rfl, rfl⟩

/-- Witness for C7: the two-page demo server yields both pages' spaces in
order and two logged requests, the second carrying the token and both
carrying the name filter. -/
theorem list_spaces_spec_witness :
    list_spaces serveDemo (some "nm") 2
      = some (.ok [.str "s1", .str "s2"],
          [⟨1000, none, some "nm"⟩, ⟨1000, some "t1", some "nm"⟩]) := by
  rw [(list_spaces_spec serveDemo (some "nm") 1
      (by decide) (by decide) (by decide)).1]
  rfl

end Goodmem

namespace Goodmem

/-- C8: `delete_space` issues one delete request for the space id, returns
no value (`()`) on a 2xx response, and surfaces every failure as the
request-failure error carrying the status and body. -/
theorem delete_space_spec (space_id : String) (st : Nat) (body : String) :
    (is_success st = true →
        delete_space space_id st body = (.ok (), [space_id]))
    ∧ (is_success st = false →
        delete_space space_id st body
          = (.error (.httpStatusError st body), [space_id])) := by
  constructor <;> intro h <;> simp [delete_space, raise_for_status, h]

/-- Witness for C8: deleting succeeds with no value on 200 and fails with
the request-failure error on 500. -/
theorem delete_space_spec_witness :
    delete_space "space-1" 200 "" = (.ok (), ["space-1"])
    ∧ delete_space "space-1" 500 "boom"
        = (.error (.httpStatusError 500 "boom"), ["space-1"]) :=
  ⟨(delete_space_spec "space-1" 200 "").1 (by decide),
   (delete_space_spec "space-1" 500 "boom").2 (by decide)⟩

/-- C1: when both a space id and a space name are supplied, a name-filtered
listing whose match carries a different id fails with the conflict error
("id and name refer to different spaces"), and an empty listing fails with
"name does not match any existing space"; in both cases no space is
created and no id is silently preferred. -/
theorem resolve_space_conflict_spec (r : SpaceRemote) (i n : String)
    (env_id env_name : Option String) (dflt : String) :
    (∀ sr, (r.listByName n).head? = some sr → sr.spaceId ≠ i →
        resolve_space r (some i) (some n) env_id env_name dflt
          = (.error "id and name refer to different spaces", []))
    ∧ (r.listByName n = [] →
        resolve_space r (some i) (some n) env_id env_name dflt
          = (.error "name does not match any existing space", [])) := by
  constructor
  · intro sr hh hne
    simp [resolve_space, hh, hne]
  · intro h
    simp [resolve_space, h]

/-- Witness for C1 at the repository's own test fixtures: a listing holding
`other-id`/`my_space` against supplied id `wrong-id` yields the conflict
error, and an empty listing yields the no-match error; neither creates a
space. -/
theorem resolve_space_conflict_spec_witness :
    resolve_space remoteDemo (some "wrong-id") (some "my_space") none none
        "adk_tool_test-user"
      = (.error "id and name refer to different spaces", [])
    ∧ resolve_space remoteEmptyDemo (some "some-id")
        (some "nonexistent_space") none none "adk_tool_test-user"
      = (.error "name does not match any existing space", []) :=
  ⟨(resolve_space_conflict_spec remoteDemo "wrong-id" "my_space" none none
      "adk_tool_test-user").1 ⟨"other-id", "my_space"⟩ rfl (by decide),
   (resolve_space_conflict_spec remoteEmptyDemo "some-id"
      "nonexistent_space" none none "adk_tool_test-user").2 rfl⟩

end Goodmem
